import Mathlib

/-!
Shallow embedding of the CPU LLM inference engine
(`mediapipe/tasks/cc/genai/inference/c/llm_inference_engine_cpu.cc`).

C++ `std::string` is modelled as Lean `String` (a list of characters);
`substr`, `size` and `find` are modelled by the helpers below.  The
stateful decode loop `next_token_function` is modelled as a fuel-indexed
recursion over an explicit run state; the backend (`Llm::GetNextToken`)
is modelled as a function from the number of previous backend calls to
the token id it returns, and the tokenizer / normalizer as plain
functions.  Fatal aborts (`ABSL_LOG(FATAL)`) are modelled as `none`.
-/

namespace LlmCpu

/-- `kCheckLastKChars` constant (line 50 of the source). -/
def kCheckLastKChars : Nat := 10

/-- `std::string::size()`: length in characters. -/
def strLen (s : String) : Nat := s.data.length

/-- `std::string::substr(0, n)`: the first `n` characters. -/
def substrTo (s : String) (n : Nat) : String := ⟨s.data.take n⟩

/-- `std::string::substr(n)`: everything from character `n` on. -/
def substrFrom (s : String) (n : Nat) : String := ⟨s.data.drop n⟩

/-- Index of the first occurrence of `pat` in `s` (`std::string::find`),
`none` when there is no occurrence (`npos`). -/
def findFrom : List Char → List Char → Option Nat
  | s, pat =>
    if pat.isPrefixOf s then some 0
    else
      match s with
      | [] => none
      | _ :: t => (findFrom t pat).map (· + 1)

/-- `std::string::find` on strings. -/
def strFind (s pat : String) : Option Nat := findFrom s.data pat.data

/-- The stop-token scan of `next_token_function` (lines 111–120): walk the
configured stop tokens in order and return the first-occurrence index of
the FIRST configured token that occurs anywhere in the buffer (the loop
`break`s at the first hit), `none` if no token occurs. -/
def stopMatch : List String → String → Option Nat
  | [], _ => none
  | st :: rest, buf =>
    match strFind buf st with
    | some i => some i
    | none => stopMatch rest buf

/-- Modelled from the spec: the §4.4 stop-sequence matcher contract —
among all configured stop sequences that occur in the buffer, select the
match with the LOWEST starting index (ties broken by configuration
order, which the minimum makes irrelevant for the index). Used only to
compare the source's matcher against the specified one. -/
def stopMatchSpec (stops : List String) (buf : String) : Option Nat :=
  (stops.filterMap (fun st => strFind buf st)).foldl
    (fun acc i =>
      match acc with
      | none => some i
      | some j => some (min j i))
    none

/-- Effect of lines 111–120 on the trailing buffer: whether a stop token
matched plus the (possibly truncated) buffer. -/
def applyStopTokens (stops : List String) (buf : String) : Bool × String :=
  match stopMatch stops buf with
  | some i => (true, substrTo buf i)
  | none => (false, buf)

/-- The generation environment: tokenizer decode, optional normalizer,
configured stop tokens, and the backend modelled as the token id returned
by the n-th `GetNextToken` call. -/
structure GenEnv where
  idToPiece : Int → String
  normalize : Option (String → String)
  stop_tokens : List String
  nextToken : Nat → Int

/-- The mutable state `next_token_function` works on: the session fields
it reads and writes, plus instrumentation (`backend_calls` counts
`GetNextToken` calls, `chunks` logs every `cpu_callback` invocation with
the `early_stop` flag at flush time, i.e. the `done` flag the wrapped
callback would report). -/
structure RunState where
  response_count : Int
  max_num_output_tokens : Int
  last_10_char : String
  final_output : String
  early_stop : Bool
  backend_calls : Nat
  chunks : List (String × Bool)
deriving DecidableEq, Repr, Inhabited

/-- Body of one productive decode iteration (lines 89–133): call the
backend, set `early_stop` at the output-token ceiling, decode and
normalize the token, append it to the trailing buffer, run the stop-token
scan, compute the ready text and flush it to the accumulated output and
the callback. `response_count` has already been incremented by the
caller (the `response_count++` of line 84). -/
def genStep (env : GenEnv) (s : RunState) : RunState :=
  let id := env.nextToken s.backend_calls
  let s1 : RunState := { s with backend_calls := s.backend_calls + 1 }
  -- "For future multithreading support" re-check (lines 96–98)
  if s1.early_stop then s1
  else
    let s2 : RunState :=
      if s1.response_count = s1.max_num_output_tokens then
        { s1 with early_stop := true }
      else s1
    let piece := env.idToPiece id
    let token :=
      match env.normalize with
      | some f => f piece
      | none => piece
    let s3 : RunState := { s2 with last_10_char := s2.last_10_char ++ token }
    let p := applyStopTokens env.stop_tokens s3.last_10_char
    let s4 : RunState :=
      { s3 with early_stop := s3.early_stop || p.1, last_10_char := p.2 }
    let ready : String :=
      if s4.early_stop then s4.last_10_char
      else if kCheckLastKChars < strLen s4.last_10_char then
        substrTo s4.last_10_char (strLen s4.last_10_char - kCheckLastKChars)
      else ""
    let s5 : RunState :=
      if s4.early_stop then s4
      else if kCheckLastKChars < strLen s4.last_10_char then
        { s4 with
            last_10_char :=
              substrFrom s4.last_10_char (strLen s4.last_10_char - kCheckLastKChars) }
      else s4
    { s5 with
        final_output := s5.final_output ++ ready,
        chunks := s5.chunks ++ [(ready, s5.early_stop)] }

/-- `next_token_function` (lines 81–138): `response_count` is
post-incremented, generation continues while the pre-increment value is
below `max_num_output_tokens` and `early_stop` is unset.  The C++
recursion terminates because `response_count` strictly increases; here
the same recursion is indexed by fuel (any fuel above the remaining
iteration count yields the same result). -/
def next_token_function (env : GenEnv) : Nat → RunState → RunState
  | 0, s => s
  | fuel + 1, s =>
    let s1 : RunState := { s with response_count := s.response_count + 1 }
    if s.response_count < s.max_num_output_tokens then
      if s1.early_stop then s1
      else next_token_function env fuel (genStep env s1)
    else s1

/-- The immutable engine (`LlmInferenceEngineCpu_Engine`, lines 52–66):
tokenizer `Encode` (an error models a non-ok `absl::Status`, carrying the
status message), tokenizer `IdToPiece`, the optional normalizer, the
start token id, the configured stop tokens and the token budget
`max_num_tokens` (a `size_t`). -/
structure CpuEngine where
  encode : String → Except String (List Int)
  idToPiece : Int → String
  normalize : Option (String → String)
  start_token_id : Int
  stop_tokens : List String
  max_num_tokens : Nat

/-- The per-session mutable fields of `LlmInferenceEngineCpu_Session`
(lines 68–79) that the C API reads and writes. -/
structure CpuSession where
  prompt : String
  max_num_output_tokens : Int
  response_count : Int
  last_10_char : String
  final_output : String
  early_stop : Bool
deriving Repr, Inhabited, DecidableEq

/-- The generation environment a session derives from its engine and the
backend stream. -/
def genEnvOf (eng : CpuEngine) (nt : Nat → Int) : GenEnv :=
  { idToPiece := eng.idToPiece
    normalize := eng.normalize
    stop_tokens := eng.stop_tokens
    nextToken := nt }

/-- Result of the worker thread: the token ids handed to
`InitInputTokens` and the run state after `next_token_function`
returns. -/
structure StartResult where
  init_tokens : List Int
  run : RunState
deriving Repr, Inhabited, DecidableEq

/-- Fuel that over-approximates the number of `next_token_function`
invocations a run starting at `response_count = rc0` with ceiling
`maxOut` can make (one invocation per increment of `response_count`,
which stops being productive at `maxOut`). -/
def runFuel (maxOut rc0 : Int) : Nat := (maxOut - rc0).toNat + 1

/-- `start_llm_function` (lines 140–165): encode the prompt (a failed
encode is `ABSL_LOG(FATAL)`, i.e. process death, modelled as `none`),
prepend the start token id, hand the ids to `InitInputTokens`, set
`max_num_output_tokens := max_num_tokens - prompt_ids.size()` WITHOUT any
guard against a non-positive value, and run `next_token_function`. -/
def start_llm_function (eng : CpuEngine) (nt : Nat → Int) (s : CpuSession) :
    Option StartResult :=
  match eng.encode s.prompt with
  | .error _ => none
  | .ok ids =>
    let prompt_ids := eng.start_token_id :: ids
    let maxOut : Int := (eng.max_num_tokens : Int) - prompt_ids.length
    let st : RunState :=
      { response_count := s.response_count
        max_num_output_tokens := maxOut
        last_10_char := s.last_10_char
        final_output := s.final_output
        early_stop := s.early_stop
        backend_calls := 0
        chunks := [] }
    some { init_tokens := prompt_ids
           run := next_token_function (genEnvOf eng nt) (runFuel maxOut s.response_count) st }

/-- The per-request reset performed by
`LlmInferenceEngine_Session_PredictAsync` (lines 260–263): install the
prompt and clear `final_output`, `last_10_char` and `early_stop`.
`response_count` and `max_num_output_tokens` are NOT touched. -/
def predictAsyncReset (s : CpuSession) (input : String) : CpuSession :=
  { s with
      prompt := input
      final_output := ""
      last_10_char := ""
      early_stop := false }

/-- A `LlmResponseContext` (the response handoff buffer): the entry
array (`none` models a null pointer), the entry count and the done
flag. -/
structure LlmResponseContext where
  response_array : Option (List String)
  response_count : Nat
  done : Bool
deriving Repr, Inhabited, DecidableEq

/-- The callback wrapper of `PredictAsync` (lines 241–258) marshals one
ready-text chunk into a one-entry response context whose `done` flag is
the session's `early_stop` at flush time. -/
def marshalChunk (c : String × Bool) : LlmResponseContext :=
  { response_array := some [c.1], response_count := 1, done := c.2 }

/-- `LlmInferenceEngine_Session_PredictAsync` (lines 234–269): reset the
per-request state, spawn the worker running `start_llm_function`, and
(here) return the session as the worker leaves it together with the
whole run state (whose `chunks` are the callback invocations in delivery
order).  `none` models the worker dying on a fatal encode error. -/
def LlmInferenceEngine_Session_PredictAsync (eng : CpuEngine) (nt : Nat → Int)
    (s : CpuSession) (input : String) : Option (CpuSession × RunState) :=
  match start_llm_function eng nt (predictAsyncReset s input) with
  | none => none
  | some res =>
    some ({ predictAsyncReset s input with
              max_num_output_tokens := res.run.max_num_output_tokens
              response_count := res.run.response_count
              last_10_char := res.run.last_10_char
              final_output := res.run.final_output
              early_stop := res.run.early_stop },
          res.run)

/-- `LlmInferenceEngine_Session_PredictSync` (lines 202–232): run
`PredictAsync` with a discarding callback, join the worker, and package
the session's whole `final_output` as a single-entry context with
`done = true`. -/
def LlmInferenceEngine_Session_PredictSync (eng : CpuEngine) (nt : Nat → Int)
    (s : CpuSession) (input : String) :
    Option (CpuSession × LlmResponseContext) :=
  match LlmInferenceEngine_Session_PredictAsync eng nt s input with
  | none => none
  | some (s1, _) =>
    some (s1,
      { response_array := some [s1.final_output]
        response_count := 1
        done := true })

/-- `LlmInferenceEngine_CloseResponseContext` (lines 169–177): free the
first `response_count` entries of the array and the array itself, then
null the array pointer and zero the count.  The first component lists
the entries that were freed, in order. -/
def LlmInferenceEngine_CloseResponseContext (ctx : LlmResponseContext) :
    List String × LlmResponseContext :=
  ((match ctx.response_array with
    | some arr => arr.take ctx.response_count
    | none => []),
   { ctx with response_array := none, response_count := 0 })

/-- `LlmInferenceEngine_Session_SizeInTokens` (lines 271–282): the token
count of a successful encode, or `-1` together with the status message
(`strdup(status.ToString())`) on failure. -/
def LlmInferenceEngine_Session_SizeInTokens (eng : CpuEngine) (input : String) :
    Int × Option String :=
  match eng.encode input with
  | .ok ids => ((ids.length : Int), none)
  | .error e => (-1, some e)

/-- Concatenation, in delivery order, of the text parts of a chunk
list. -/
def concatChunks : List (String × Bool) → String
  | [] => ""
  | c :: rest => c.1 ++ concatChunks rest

/-! ### Concrete instances used in counterexamples and witnesses -/

/-- A backend stream that always returns token id 0. -/
def ntZero : Nat → Int := fun _ => 0

/-- A zero-initialized fresh session. -/
def sess0 : CpuSession :=
  { prompt := ""
    max_num_output_tokens := 0
    response_count := 0
    last_10_char := ""
    final_output := ""
    early_stop := false }

/-- Engine with token budget 2 whose tokenizer encodes every prompt to
two ids: the prompt-too-long scenario of C2. -/
def c2Engine : CpuEngine :=
  { encode := fun _ => Except.ok [5, 6]
    idToPiece := fun _ => "t"
    normalize := none
    start_token_id := 1
    stop_tokens := []
    max_num_tokens := 2 }

/-- What the worker produces on the C2 scenario: backend initialized
with all three ids, output-token ceiling `-1`, no backend call, no
callback invocation, and no error. -/
def c2Result : StartResult :=
  { init_tokens := [1, 5, 6]
    run :=
      { response_count := 1
        max_num_output_tokens := -1
        last_10_char := ""
        final_output := ""
        early_stop := false
        backend_calls := 0
        chunks := [] } }

/-- Engine with token budget 3, empty stop-sequence set, and a tokenizer
that encodes the empty prompt to zero ids. -/
def eg3 : CpuEngine :=
  { encode := fun _ => Except.ok []
    idToPiece := fun _ => "x"
    normalize := none
    start_token_id := 7
    stop_tokens := []
    max_num_tokens := 3 }

/-- Session state after one `eg3` generation. -/
def c3sess : CpuSession :=
  { prompt := ""
    max_num_output_tokens := 2
    response_count := 3
    last_10_char := "xx"
    final_output := "xx"
    early_stop := true }

/-- Run state after one `eg3` generation: 2 backend calls, `done` flags
`[false, true]`. -/
def c3run : RunState :=
  { response_count := 3
    max_num_output_tokens := 2
    last_10_char := "xx"
    final_output := "xx"
    early_stop := true
    backend_calls := 2
    chunks := [("", false), ("xx", true)] }

/-- The synchronous response for the `eg3` generation. -/
def c4ctx : LlmResponseContext :=
  { response_array := some ["xx"]
    response_count := 1
    done := true }

/-- Generation environment whose backend/tokenizer emit the single
characters of `"Hi</s>extra"` in order, with stop sequence `"</s>"`. -/
def env6 : GenEnv :=
  { idToPiece := fun i => String.mk (("Hi</s>extra".data.drop i.toNat).take 1)
    normalize := none
    stop_tokens := ["</s>"]
    nextToken := fun n => (n : Int) }

/-- Fresh run state with output-token ceiling 20 for the `env6`
scenario. -/
def s6 : RunState :=
  { response_count := 0
    max_num_output_tokens := 20
    last_10_char := ""
    final_output := ""
    early_stop := false
    backend_calls := 0
    chunks := [] }

/-- A run state whose `early_stop` flag is already set. -/
def s6e : RunState :=
  { response_count := 0
    max_num_output_tokens := 20
    last_10_char := "Hi"
    final_output := ""
    early_stop := true
    backend_calls := 3
    chunks := [] }

/-- Run state of the `env6` scenario after decode step 1 (`"H"`). -/
def t6a : RunState :=
  { response_count := 1, max_num_output_tokens := 20, last_10_char := "H"
    final_output := "", early_stop := false, backend_calls := 1
    chunks := [("", false)] }

/-- Run state of the `env6` scenario after decode step 2 (`"Hi"`). -/
def t6b : RunState :=
  { response_count := 2, max_num_output_tokens := 20, last_10_char := "Hi"
    final_output := "", early_stop := false, backend_calls := 2
    chunks := [("", false), ("", false)] }

/-- Run state of the `env6` scenario after decode step 3 (`"Hi<"`). -/
def t6c : RunState :=
  { response_count := 3, max_num_output_tokens := 20, last_10_char := "Hi<"
    final_output := "", early_stop := false, backend_calls := 3
    chunks := [("", false), ("", false), ("", false)] }

/-- Run state of the `env6` scenario after decode step 4 (`"Hi</"`). -/
def t6d : RunState :=
  { response_count := 4, max_num_output_tokens := 20, last_10_char := "Hi</"
    final_output := "", early_stop := false, backend_calls := 4
    chunks := [("", false), ("", false), ("", false), ("", false)] }

/-- Run state of the `env6` scenario after decode step 5 (`"Hi</s"`). -/
def t6e : RunState :=
  { response_count := 5, max_num_output_tokens := 20, last_10_char := "Hi</s"
    final_output := "", early_stop := false, backend_calls := 5
    chunks := [("", false), ("", false), ("", false), ("", false), ("", false)] }

/-- Run state of the `env6` scenario after decode step 6: the buffer
`"Hi</s>"` matches the stop sequence, is truncated to `"Hi"`, and the
whole remainder is flushed with `done = true`. -/
def t6f : RunState :=
  { response_count := 6, max_num_output_tokens := 20, last_10_char := "Hi"
    final_output := "Hi", early_stop := true, backend_calls := 6
    chunks := [("", false), ("", false), ("", false), ("", false), ("", false), ("Hi", true)] }

/-- Environment with no stop tokens and single-character fragments. -/
def env5 : GenEnv :=
  { idToPiece := fun _ => "x"
    normalize := none
    stop_tokens := []
    nextToken := ntZero }

/-- Mid-generation state holding exactly 10 buffered characters, about
to receive one more fragment. -/
def s5 : RunState :=
  { response_count := 1
    max_num_output_tokens := 5
    last_10_char := "0123456789"
    final_output := ""
    early_stop := false
    backend_calls := 0
    chunks := [] }

/-- Engine whose tokenizer always succeeds with three ids. -/
def eg8ok : CpuEngine :=
  { encode := fun _ => Except.ok [1, 2, 3]
    idToPiece := fun _ => "x"
    normalize := none
    start_token_id := 0
    stop_tokens := []
    max_num_tokens := 10 }

/-- Engine whose tokenizer always fails with a message. -/
def eg8err : CpuEngine :=
  { encode := fun _ => Except.error "invalid input"
    idToPiece := fun _ => "x"
    normalize := none
    start_token_id := 0
    stop_tokens := []
    max_num_tokens := 10 }

/-- A two-entry response context with count equal to the number of
entries. -/
def ctx9 : LlmResponseContext :=
  { response_array := some ["a", "b"]
    response_count := 2
    done := true }

/-- Engine with token budget 6 for the session-reuse scenario of C10. -/
def eg10 : CpuEngine :=
  { encode := fun _ => Except.ok []
    idToPiece := fun _ => "y"
    normalize := none
    start_token_id := 2
    stop_tokens := []
    max_num_tokens := 6 }

/-- Session after the first `eg10` generation: `response_count` is 6,
not 0. -/
def sess10b : CpuSession :=
  { prompt := "a"
    max_num_output_tokens := 5
    response_count := 6
    last_10_char := "yyyyy"
    final_output := "yyyyy"
    early_stop := true }

/-- Session after the second (reused-session) `eg10` generation. -/
def sess10c : CpuSession :=
  { prompt := "b"
    max_num_output_tokens := 5
    response_count := 7
    last_10_char := ""
    final_output := ""
    early_stop := false }

/-- Run state of the first `eg10` generation: 5 backend calls. -/
def r10a : RunState :=
  { response_count := 6
    max_num_output_tokens := 5
    last_10_char := "yyyyy"
    final_output := "yyyyy"
    early_stop := true
    backend_calls := 5
    chunks := [("", false), ("", false), ("", false), ("", false), ("yyyyy", true)] }

/-- Run state of the second `eg10` generation: the stale
`response_count` starves it to 0 backend calls. -/
def r10b : RunState :=
  { response_count := 7
    max_num_output_tokens := 5
    last_10_char := ""
    final_output := ""
    early_stop := false
    backend_calls := 0
    chunks := [] }

/-! ### Helper lemmas -/

lemma applyStopTokens_nil (buf : String) : applyStopTokens [] buf = (false, buf) := rfl

lemma strAppendEmpty (s : String) : s ++ "" = s :=
  congrArg String.mk (List.append_nil s.data)

lemma strAppendAssoc (a b c : String) : a ++ b ++ c = a ++ (b ++ c) :=
  congrArg String.mk (List.append_assoc a.data b.data c.data)

lemma concatChunks_append_single (l : List (String × Bool)) (c : String) (d : Bool) :
    concatChunks (l ++ [(c, d)]) = concatChunks l ++ c := by
  induction l with
  | nil => exact strAppendEmpty c
  | cons a l ih =>
    simp only [List.cons_append, List.append_eq, concatChunks, ih, strAppendAssoc]

lemma genStep_backend_calls (env : GenEnv) (s : RunState) :
    (genStep env s).backend_calls = s.backend_calls + 1 := by
  simp only [genStep]
  repeat' split
  all_goals rfl

lemma genStep_response_count (env : GenEnv) (s : RunState) :
    (genStep env s).response_count = s.response_count := by
  simp only [genStep]
  repeat' split
  all_goals rfl

lemma genStep_max (env : GenEnv) (s : RunState) :
    (genStep env s).max_num_output_tokens = s.max_num_output_tokens := by
  simp only [genStep]
  repeat' split
  all_goals rfl

/-- With `early_stop` unset at entry, one productive step appends exactly
one chunk whose flag is the session's `early_stop` at flush time, and
extends the accumulated output by the same text. -/
lemma genStep_appends_chunk (env : GenEnv) (s : RunState)
    (hes : s.early_stop = false) :
    ∃ c : String,
      (genStep env s).chunks = s.chunks ++ [(c, (genStep env s).early_stop)] ∧
      (genStep env s).final_output = s.final_output ++ c := by
  simp only [genStep, hes]
  repeat' split
  all_goals first
    | exact ⟨_, rfl, rfl⟩
    | simp_all

/-- With no configured stop tokens, the `early_stop` flag after one
productive step is exactly "this step reached the output-token
ceiling". -/
lemma genStep_no_stops_early (env : GenEnv) (s : RunState)
    (hstops : env.stop_tokens = []) (hes : s.early_stop = false) :
    (genStep env s).early_stop = decide (s.response_count = s.max_num_output_tokens) := by
  simp only [genStep, hstops, applyStopTokens_nil, hes]
  repeat' split
  all_goals simp_all

/-- `next_token_function` called on a state whose `early_stop` flag is
already set increments `response_count` once and returns without calling
the backend (lines 84–87: the increment happens in the loop test, the
early-stop check returns before `GetNextToken`). -/
lemma ntf_early_stop (env : GenEnv) (fuel : Nat) (s : RunState)
    (hes : s.early_stop = true) :
    next_token_function env (fuel + 1) s = { s with response_count := s.response_count + 1 } := by
  simp only [next_token_function]
  split
  · simp [hes]
  · rfl

/-- The number of backend calls a run makes is bounded by the remaining
iteration budget `max_num_output_tokens - response_count`. -/
lemma ntf_backend_calls_le (env : GenEnv) :
    ∀ (fuel : Nat) (s : RunState),
      (next_token_function env fuel s).backend_calls ≤
        s.backend_calls + (s.max_num_output_tokens - s.response_count).toNat := by
  intro fuel
  induction fuel with
  | zero => intro s; exact Nat.le_add_right _ _
  | succ fuel ih =>
    intro s
    simp only [next_token_function]
    split
    · split
      · exact Nat.le_add_right _ _
      · refine le_trans (ih _) ?_
        rw [genStep_backend_calls, genStep_max, genStep_response_count]
        simp only []
        omega
    · exact Nat.le_add_right _ _

/-- `response_count - backend_calls` never decreases along a run: every
backend call is paid for by an increment of `response_count`. -/
lemma ntf_rc_sub_calls (env : GenEnv) :
    ∀ (fuel : Nat) (s : RunState),
      s.response_count - (s.backend_calls : Int) ≤
        (next_token_function env fuel s).response_count -
          ((next_token_function env fuel s).backend_calls : Int) := by
  intro fuel
  induction fuel with
  | zero => intro s; exact le_refl _
  | succ fuel ih =>
    intro s
    simp only [next_token_function]
    split
    · split
      · simp only []; omega
      · refine le_trans ?_ (ih _)
        rw [genStep_backend_calls, genStep_response_count]
        simp only []
        omega
    · simp only []; omega

/-- Unfolding a productive iteration: below the ceiling and with
`early_stop` unset, one recursion step is `genStep` after the
`response_count` increment. -/
lemma ntf_step (env : GenEnv) (fuel : Nat) (s : RunState)
    (hlt : s.response_count < s.max_num_output_tokens) (hes : s.early_stop = false) :
    next_token_function env (fuel + 1) s =
      next_token_function env fuel
        (genStep env { s with response_count := s.response_count + 1 }) := by
  simp only [next_token_function]
  rw [if_pos hlt, if_neg (by simp [hes])]

/-- Unfolding a non-productive iteration: at or above the ceiling the
function only increments `response_count` and returns. -/
lemma ntf_stop (env : GenEnv) (fuel : Nat) (s : RunState)
    (hge : ¬ s.response_count < s.max_num_output_tokens) :
    next_token_function env (fuel + 1) s =
      { s with response_count := s.response_count + 1 } := by
  simp only [next_token_function]
  rw [if_neg hge]

/-- The early-return of lines 96–98 (`early_stop` set at entry): only the
backend-call counter moves. -/
lemma genStep_early (env : GenEnv) (s : RunState) (hes : s.early_stop = true) :
    genStep env s = { s with backend_calls := s.backend_calls + 1 } := by
  simp only [genStep]
  rw [if_pos (by simp [hes])]

/-- One step preserves "the accumulated output is the concatenation of
the flushed chunks". -/
lemma genStep_concat (env : GenEnv) (s : RunState)
    (h : s.final_output = concatChunks s.chunks) :
    (genStep env s).final_output = concatChunks (genStep env s).chunks := by
  cases hes : s.early_stop with
  | true => rw [genStep_early env s hes]; exact h
  | false =>
    obtain ⟨c, hch, hout⟩ := genStep_appends_chunk env s hes
    rw [hch, hout, concatChunks_append_single, h]

/-- A whole run preserves "the accumulated output is the concatenation
of the flushed chunks". -/
lemma ntf_concat (env : GenEnv) :
    ∀ (fuel : Nat) (s : RunState),
      s.final_output = concatChunks s.chunks →
      (next_token_function env fuel s).final_output =
        concatChunks (next_token_function env fuel s).chunks := by
  intro fuel
  induction fuel with
  | zero => intro s h; exact h
  | succ fuel ih =>
    intro s h
    by_cases hlt : s.response_count < s.max_num_output_tokens
    · cases hes : s.early_stop with
      | true => rw [ntf_early_stop env fuel s hes]; exact h
      | false =>
        rw [ntf_step env fuel s hlt hes]
        exact ih _ (genStep_concat _ _ h)
    · rw [ntf_stop env fuel s hlt]; exact h

/-- A run with no configured stop tokens, started below the ceiling with
`n + 1` iterations left and `early_stop` unset, makes exactly `n + 1`
backend calls and flushes chunks whose `done` flags are `n` times
`false` followed by a single `true`. -/
lemma ntf_empty_stops_run (env : GenEnv) (hstops : env.stop_tokens = []) :
    ∀ (n fuel : Nat) (s : RunState),
      s.early_stop = false →
      s.max_num_output_tokens = s.response_count + (n + 1) →
      n + 2 ≤ fuel →
      (next_token_function env fuel s).backend_calls = s.backend_calls + (n + 1) ∧
      (next_token_function env fuel s).chunks.map Prod.snd =
        s.chunks.map Prod.snd ++ (List.replicate n false ++ [true]) := by
  intro n
  induction n with
  | zero =>
    intro fuel s hes hmax hfuel
    obtain ⟨f, rfl⟩ : ∃ f, fuel = f + 1 := ⟨fuel - 1, by omega⟩
    obtain ⟨f', rfl⟩ : ∃ f', f = f' + 1 := ⟨f - 1, by omega⟩
    have hlt : s.response_count < s.max_num_output_tokens := by omega
    rw [ntf_step env _ s hlt hes]
    set S1 : RunState := { s with response_count := s.response_count + 1 } with hS1
    have hesS1 : S1.early_stop = false := hes
    have hearly : (genStep env S1).early_stop = true := by
      rw [genStep_no_stops_early env S1 hstops hesS1]
      simp only [decide_eq_true_eq]
      show s.response_count + 1 = s.max_num_output_tokens
      omega
    obtain ⟨c, hch, hout⟩ := genStep_appends_chunk env S1 hesS1
    rw [ntf_early_stop env f' _ hearly]
    constructor
    · show (genStep env S1).backend_calls = s.backend_calls + 1
      rw [genStep_backend_calls]
    · show (genStep env S1).chunks.map Prod.snd = _
      rw [hch, hearly]
      simp
  | succ n ih =>
    intro fuel s hes hmax hfuel
    obtain ⟨f, rfl⟩ : ∃ f, fuel = f + 1 := ⟨fuel - 1, by omega⟩
    have hlt : s.response_count < s.max_num_output_tokens := by omega
    rw [ntf_step env _ s hlt hes]
    set S1 : RunState := { s with response_count := s.response_count + 1 } with hS1
    have hesS1 : S1.early_stop = false := hes
    have hearly : (genStep env S1).early_stop = false := by
      rw [genStep_no_stops_early env S1 hstops hesS1]
      simp only [decide_eq_false_iff_not]
      show ¬ s.response_count + 1 = s.max_num_output_tokens
      omega
    obtain ⟨c, hch, hout⟩ := genStep_appends_chunk env S1 hesS1
    have hrc : (genStep env S1).response_count = s.response_count + 1 :=
      genStep_response_count env S1
    have hmx : (genStep env S1).max_num_output_tokens = s.max_num_output_tokens :=
      genStep_max env S1
    have hbc : (genStep env S1).backend_calls = s.backend_calls + 1 :=
      genStep_backend_calls env S1
    obtain ⟨ih1, ih2⟩ := ih f (genStep env S1) hearly (by omega) (by omega)
    constructor
    · rw [ih1, hbc]; omega
    · rw [ih2, hch, hearly]
      simp [List.replicate_succ]

@[simp] lemma predictAsyncReset_prompt (s : CpuSession) (input : String) :
    (predictAsyncReset s input).prompt = input := rfl

@[simp] lemma predictAsyncReset_response_count (s : CpuSession) (input : String) :
    (predictAsyncReset s input).response_count = s.response_count := rfl

@[simp] lemma predictAsyncReset_max (s : CpuSession) (input : String) :
    (predictAsyncReset s input).max_num_output_tokens = s.max_num_output_tokens := rfl

@[simp] lemma predictAsyncReset_last10 (s : CpuSession) (input : String) :
    (predictAsyncReset s input).last_10_char = "" := rfl

@[simp] lemma predictAsyncReset_final (s : CpuSession) (input : String) :
    (predictAsyncReset s input).final_output = "" := rfl

@[simp] lemma predictAsyncReset_early (s : CpuSession) (input : String) :
    (predictAsyncReset s input).early_stop = false := rfl

/-- Characterization of a successful `PredictAsync` call: the prompt
encoded, the run performed by the worker from the freshly reset state
(with the carried-over `response_count`), and the session as the worker
leaves it. -/
lemma predictAsync_spec (eng : CpuEngine) (nt : Nat → Int) (s : CpuSession)
    (input : String) (s₁ : CpuSession) (r : RunState)
    (h : LlmInferenceEngine_Session_PredictAsync eng nt s input = some (s₁, r)) :
    ∃ ids : List Int, eng.encode input = Except.ok ids ∧
      r = next_token_function (genEnvOf eng nt)
            (runFuel ((eng.max_num_tokens : Int) - ((eng.start_token_id :: ids).length : Int))
              s.response_count)
            { response_count := s.response_count
              max_num_output_tokens :=
                (eng.max_num_tokens : Int) - ((eng.start_token_id :: ids).length : Int)
              last_10_char := ""
              final_output := ""
              early_stop := false
              backend_calls := 0
              chunks := [] } ∧
      s₁ = { prompt := input
             max_num_output_tokens := r.max_num_output_tokens
             response_count := r.response_count
             last_10_char := r.last_10_char
             final_output := r.final_output
             early_stop := r.early_stop } := by
  unfold LlmInferenceEngine_Session_PredictAsync start_llm_function at h
  simp only [predictAsyncReset_prompt, predictAsyncReset_response_count,
    predictAsyncReset_last10, predictAsyncReset_final, predictAsyncReset_early] at h
  cases henc : eng.encode input with
  | error e => rw [henc] at h; cases h
  | ok ids =>
    rw [henc] at h
    simp only [Option.some.injEq, Prod.mk.injEq] at h
    obtain ⟨h1, h2⟩ := h
    subst h2
    subst h1
    exact ⟨ids, rfl, rfl, rfl⟩

@[simp] lemma strLen_substrFrom (s : String) (k : Nat) :
    strLen (substrFrom s k) = strLen s - k := by
  simp [strLen, substrFrom]

/-- The count of backend calls a run makes, started with a zeroed call
counter, is at most the remaining iteration budget. -/
lemma ntf_calls_le_budget (env : GenEnv) (fuel : Nat) (s : RunState)
    (hb : s.backend_calls = 0) :
    (next_token_function env fuel s).backend_calls ≤
      (s.max_num_output_tokens - s.response_count).toNat := by
  have h := ntf_backend_calls_le env fuel s
  omega

/-- A run started from a fresh state makes no more backend calls than
`response_count` increments. -/
lemma ntf_calls_le_rc (env : GenEnv) (fuel : Nat) (s : RunState)
    (h0 : s.response_count = 0) (hb : s.backend_calls = 0) :
    ((next_token_function env fuel s).backend_calls : Int) ≤
      (next_token_function env fuel s).response_count := by
  have h := ntf_rc_sub_calls env fuel s
  rw [h0, hb] at h
  omega

set_option maxHeartbeats 1000000 in
/-- Step-by-step evaluation of the `"Hi</s>extra"` scenario: six decode
steps, stop match at step 6, then one early-stop return. -/
lemma env6_run :
    next_token_function env6 (runFuel 20 0) s6 =
      { t6f with response_count := t6f.response_count + 1 } := by
  have e1 : genStep env6 { s6 with response_count := s6.response_count + 1 } = t6a := by decide
  have e2 : genStep env6 { t6a with response_count := t6a.response_count + 1 } = t6b := by decide
  have e3 : genStep env6 { t6b with response_count := t6b.response_count + 1 } = t6c := by decide
  have e4 : genStep env6 { t6c with response_count := t6c.response_count + 1 } = t6d := by decide
  have e5 : genStep env6 { t6d with response_count := t6d.response_count + 1 } = t6e := by decide
  have e6 : genStep env6 { t6e with response_count := t6e.response_count + 1 } = t6f := by decide
  have hf : runFuel 20 0 = 21 := by decide
  rw [hf]
  rw [ntf_step env6 20 s6 (by decide) rfl, e1]
  rw [ntf_step env6 19 t6a (by decide) rfl, e2]
  rw [ntf_step env6 18 t6b (by decide) rfl, e3]
  rw [ntf_step env6 17 t6c (by decide) rfl, e4]
  rw [ntf_step env6 16 t6d (by decide) rfl, e5]
  rw [ntf_step env6 15 t6e (by decide) rfl, e6]
  rw [ntf_early_stop env6 14 t6f rfl]

/-! ### Claims -/

/-- C1: the claim states that the stop-sequence matcher selects the
match with the lowest starting index in the buffer among all configured
sequences (ties broken by configuration order) and truncates there.  The
code (lines 111–120) instead scans the sequences in configured order and
`break`s at the FIRST configured sequence that occurs anywhere: on
buffer `"ba"` with stop sequences `["a", "b"]` it matches `"a"` at index
1 and truncates to `"b"`, whereas the lowest starting index over all
sequences is 0 (a `"b"` match), which would truncate to `""`.  This
theorem records the code's behaviour at that input next to the
specified matcher. -/
theorem claim_C1_code_behavior :
    stopMatch ["a", "b"] "ba" = some 1 ∧
    applyStopTokens ["a", "b"] "ba" = (true, "b") ∧
    stopMatchSpec ["a", "b"] "ba" = some 0 := by
  decide

/-- C2: the claim states that a prompt whose encoded length makes the
output-token ceiling non-positive fails fast with a "prompt too long"
error.  The code (lines 159–162) has no such guard: with token budget 2
and a prompt encoding to two ids, the worker still initializes the
backend with all three ids (start token included), computes ceiling
`-1`, performs no generation step, invokes no callback, and reports no
error.  This theorem evaluates the embedded `start_llm_function` at that
failing input. -/
theorem claim_C2_code_behavior :
    start_llm_function c2Engine ntZero (predictAsyncReset sess0 "p") = some c2Result ∧
    c2Result.init_tokens = [1, 5, 6] ∧
    c2Result.run.max_num_output_tokens = -1 ∧
    c2Result.run.backend_calls = 0 ∧
    c2Result.run.chunks = [] := by
  decide

/-- C3: for a fresh session (`response_count = 0`), an empty
stop-sequence set and a prompt whose encoded length (start token
included) is below the token budget, the generation run requests exactly
`budget - encoded_prompt_length` next tokens from the backend and the
callback's `done` flag is `true` on exactly one invocation, the last
one. -/
theorem claim_C3_token_budget_termination
    (eng : CpuEngine) (nt : Nat → Int) (s : CpuSession) (input : String)
    (ids : List Int) (s₁ : CpuSession) (r : RunState)
    (hstops : eng.stop_tokens = [])
    (hfresh : s.response_count = 0)
    (henc : eng.encode input = Except.ok ids)
    (hlt : ((ids.length : Int) + 1) < (eng.max_num_tokens : Int))
    (h : LlmInferenceEngine_Session_PredictAsync eng nt s input = some (s₁, r)) :
    r.backend_calls = ((eng.max_num_tokens : Int) - ((ids.length : Int) + 1)).toNat ∧
    r.chunks.map Prod.snd =
      List.replicate
        (((eng.max_num_tokens : Int) - ((ids.length : Int) + 1)).toNat - 1) false
        ++ [true] := by
  obtain ⟨ids', henc', hr, -⟩ := predictAsync_spec eng nt s input s₁ r h
  rw [henc] at henc'
  injection henc' with hids
  subst hids
  have hlen : ((eng.start_token_id :: ids).length : Int) = (ids.length : Int) + 1 := by
    push_cast [List.length_cons]
    ring
  obtain ⟨hc1, hc2⟩ := ntf_empty_stops_run (genEnvOf eng nt) hstops
    (((eng.max_num_tokens : Int) - ((ids.length : Int) + 1)).toNat - 1)
    (runFuel ((eng.max_num_tokens : Int) - ((eng.start_token_id :: ids).length : Int))
      s.response_count)
    { response_count := s.response_count
      max_num_output_tokens :=
        (eng.max_num_tokens : Int) - ((eng.start_token_id :: ids).length : Int)
      last_10_char := ""
      final_output := ""
      early_stop := false
      backend_calls := 0
      chunks := [] }
    rfl (by simp only []; omega) (by simp only [runFuel]; omega)
  rw [hr]
  constructor
  · rw [hc1]
    simp only []
    omega
  · rw [hc2]
    simp

/-- C4: for a prompt whose encoded length is below the token budget and
the same engine and backend behaviour, the concatenation, in delivery
order, of all chunks passed to the asynchronous predict callback equals
the text in the single buffer returned by synchronous predict. -/
theorem claim_C4_sync_async_equiv
    (eng : CpuEngine) (nt : Nat → Int) (s : CpuSession) (input : String)
    (ids : List Int) (s₁ : CpuSession) (r : RunState)
    (s₂ : CpuSession) (ctx : LlmResponseContext)
    (_henc : eng.encode input = Except.ok ids)
    (_hlt : ((ids.length : Int) + 1) < (eng.max_num_tokens : Int))
    (ha : LlmInferenceEngine_Session_PredictAsync eng nt s input = some (s₁, r))
    (hs : LlmInferenceEngine_Session_PredictSync eng nt s input = some (s₂, ctx)) :
    ctx.response_array = some [concatChunks r.chunks] := by
  obtain ⟨ids', henc', hr, hsess⟩ := predictAsync_spec eng nt s input s₁ r ha
  have hinv : r.final_output = concatChunks r.chunks := by
    rw [hr]
    exact ntf_concat _ _ _ rfl
  unfold LlmInferenceEngine_Session_PredictSync at hs
  rw [ha] at hs
  simp only [Option.some.injEq, Prod.mk.injEq] at hs
  obtain ⟨hses, hctx⟩ := hs
  subst hses
  subst hctx
  show some [s₁.final_output] = some [concatChunks r.chunks]
  rw [show s₁.final_output = r.final_output from by rw [hsess], hinv]

/-- C5: with no stop sequence configured, every productive decode step
flushes exactly one chunk; if the step is non-final and its chunk is
non-empty, the trailing buffer retains exactly the lookahead-window size
(10) characters afterwards, and the flush of the step on which
generation stops emits the entire remaining buffer content. -/
theorem claim_C5_lookahead (env : GenEnv) (s : RunState)
    (hstops : env.stop_tokens = []) (hes : s.early_stop = false) :
    ∃ c : String,
      (genStep env s).chunks = s.chunks ++ [(c, (genStep env s).early_stop)] ∧
      ((genStep env s).early_stop = false → c ≠ "" →
        strLen (genStep env s).last_10_char = kCheckLastKChars) ∧
      ((genStep env s).early_stop = true → c = (genStep env s).last_10_char) := by
  simp only [genStep, hstops, applyStopTokens_nil, hes]
  simp only [Bool.or_false]
  repeat' split
  all_goals simp_all [strLen_substrFrom]
  all_goals intro _
  all_goals omega

/-- C6: once the `early_stop` flag is set, `next_token_function` makes
no further backend (`GetNextToken`) call; and in the concrete scenario
with stop sequence `"</s>"` and fragments spelling `"Hi</s>extra"`, the
final output is exactly `"Hi"` after exactly 6 backend calls, so no
fragment of `"extra"` (fragment index 6 and beyond) is ever
requested. -/
theorem claim_C6_early_stop_no_backend :
    (∀ (env : GenEnv) (fuel : Nat) (s : RunState), s.early_stop = true →
        (next_token_function env fuel s).backend_calls = s.backend_calls) ∧
    ((next_token_function env6 (runFuel 20 0) s6).final_output = "Hi" ∧
     (next_token_function env6 (runFuel 20 0) s6).backend_calls = 6 ∧
     (next_token_function env6 (runFuel 20 0) s6).early_stop = true) := by
  constructor
  · intro env fuel s hes
    cases fuel with
    | zero => rfl
    | succ f =>
      by_cases hlt : s.response_count < s.max_num_output_tokens
      · rw [ntf_early_stop env f s hes]
      · rw [ntf_stop env f s hlt]
  · refine ⟨?_, ?_, ?_⟩ <;> rw [env6_run] <;> rfl

/-- C7: whenever synchronous predict returns, the returned buffer has
entry count exactly 1 and `done = true`, and its single entry is the
session's entire accumulated output. -/
theorem claim_C7_sync_single_entry
    (eng : CpuEngine) (nt : Nat → Int) (s : CpuSession) (input : String)
    (s₂ : CpuSession) (ctx : LlmResponseContext)
    (h : LlmInferenceEngine_Session_PredictSync eng nt s input = some (s₂, ctx)) :
    ctx.response_count = 1 ∧ ctx.done = true ∧
    ctx.response_array = some [s₂.final_output] := by
  unfold LlmInferenceEngine_Session_PredictSync at h
  cases hasync : LlmInferenceEngine_Session_PredictAsync eng nt s input with
  | none => rw [hasync] at h; cases h
  | some p =>
    obtain ⟨s₁, r⟩ := p
    rw [hasync] at h
    simp only [Option.some.injEq, Prod.mk.injEq] at h
    obtain ⟨h1, h2⟩ := h
    subst h1
    subst h2
    exact ⟨rfl, rfl, rfl⟩

/-- C8: `SizeInTokens` returns the length of the token-id sequence the
tokenizer's `Encode` produces when encoding succeeds, and `-1` together
with the error message when encoding fails. -/
theorem claim_C8_size_in_tokens (eng : CpuEngine) (input : String) :
    (∀ ids : List Int, eng.encode input = Except.ok ids →
        LlmInferenceEngine_Session_SizeInTokens eng input = ((ids.length : Int), none)) ∧
    (∀ e : String, eng.encode input = Except.error e →
        LlmInferenceEngine_Session_SizeInTokens eng input = (-1, some e)) := by
  constructor
  · intro ids h
    unfold LlmInferenceEngine_Session_SizeInTokens
    rw [h]
  · intro e h
    unfold LlmInferenceEngine_Session_SizeInTokens
    rw [h]

/-- C9: for a response context whose entry count equals its number of
allocated entries, `CloseResponseContext` releases every entry (in
order) and the array, leaving entry count 0 and a null array
reference. -/
theorem claim_C9_close_response (ctx : LlmResponseContext) (arr : List String)
    (harr : ctx.response_array = some arr)
    (hcount : ctx.response_count = arr.length) :
    (LlmInferenceEngine_CloseResponseContext ctx).1 = arr ∧
    (LlmInferenceEngine_CloseResponseContext ctx).2.response_count = 0 ∧
    (LlmInferenceEngine_CloseResponseContext ctx).2.response_array = none := by
  unfold LlmInferenceEngine_CloseResponseContext
  refine ⟨?_, rfl, rfl⟩
  rw [harr, hcount]
  exact List.take_length arr

/-- C10: `PredictAsync` resets prompt, accumulated output, trailing
buffer and early-stop flag but leaves `response_count` (and
`max_num_output_tokens`) unchanged; consequently a session reused after
a completed generation of `k` backend steps performs at most
`(output-token ceiling) - k` decode steps in its next generation. -/
theorem claim_C10_frame :
    (∀ (s : CpuSession) (input : String),
        (predictAsyncReset s input).prompt = input ∧
        (predictAsyncReset s input).final_output = "" ∧
        (predictAsyncReset s input).last_10_char = "" ∧
        (predictAsyncReset s input).early_stop = false ∧
        (predictAsyncReset s input).response_count = s.response_count ∧
        (predictAsyncReset s input).max_num_output_tokens = s.max_num_output_tokens) ∧
    (∀ (eng : CpuEngine) (nt₁ nt₂ : Nat → Int) (s₀ s₁ s₂ : CpuSession)
        (in₁ in₂ : String) (r₁ r₂ : RunState) (ids₂ : List Int),
        s₀.response_count = 0 →
        LlmInferenceEngine_Session_PredictAsync eng nt₁ s₀ in₁ = some (s₁, r₁) →
        LlmInferenceEngine_Session_PredictAsync eng nt₂ s₁ in₂ = some (s₂, r₂) →
        eng.encode in₂ = Except.ok ids₂ →
        r₂.backend_calls ≤
          ((eng.max_num_tokens : Int) - ((ids₂.length : Int) + 1)
            - (r₁.backend_calls : Int)).toNat) := by
  constructor
  · exact fun s input => ⟨rfl, rfl, rfl, rfl, rfl, rfl⟩
  · intro eng nt₁ nt₂ s₀ s₁ s₂ in₁ in₂ r₁ r₂ ids₂ h0 h₁ h₂ henc₂
    obtain ⟨ids₁, henc₁, hr₁, hsess₁⟩ := predictAsync_spec _ _ _ _ _ _ h₁
    obtain ⟨ids₂', henc₂', hr₂, hsess₂⟩ := predictAsync_spec _ _ _ _ _ _ h₂
    rw [henc₂] at henc₂'
    injection henc₂' with hids
    subst hids
    have hmono : (r₁.backend_calls : Int) ≤ r₁.response_count := by
      rw [hr₁]
      refine ntf_calls_le_rc _ _ _ ?_ ?_
      · exact h0
      · rfl
    have hA : r₂.backend_calls ≤
        (((eng.max_num_tokens : Int) - ((eng.start_token_id :: ids₂).length : Int))
          - s₁.response_count).toNat := by
      rw [hr₂]
      refine ntf_calls_le_budget _ _ _ ?_
      rfl
    have hC : s₁.response_count = r₁.response_count := by rw [hsess₁]
    simp only [List.length_cons] at hA
    push_cast at hA ⊢
    omega

/-! ### Witnesses -/

/-- Witness for C3 at the concrete `eg3` scenario. -/
theorem claim_C3_witness :
    eg3.stop_tokens = [] ∧ sess0.response_count = 0 ∧
    eg3.encode "" = Except.ok [] ∧
    ((([] : List Int).length : Int) + 1) < (eg3.max_num_tokens : Int) ∧
    LlmInferenceEngine_Session_PredictAsync eg3 ntZero sess0 "" = some (c3sess, c3run) ∧
    (c3run.backend_calls =
        ((eg3.max_num_tokens : Int) - ((([] : List Int).length : Int) + 1)).toNat ∧
     c3run.chunks.map Prod.snd =
       List.replicate
         (((eg3.max_num_tokens : Int) - ((([] : List Int).length : Int) + 1)).toNat - 1)
         false ++ [true]) :=
  ⟨rfl, rfl, rfl, by decide, by decide,
   claim_C3_token_budget_termination eg3 ntZero sess0 "" [] c3sess c3run
     rfl rfl rfl (by decide) (by decide)⟩

/-- Witness for C4 at the concrete `eg3` scenario. -/
theorem claim_C4_witness :
    eg3.encode "" = Except.ok [] ∧
    ((([] : List Int).length : Int) + 1) < (eg3.max_num_tokens : Int) ∧
    LlmInferenceEngine_Session_PredictAsync eg3 ntZero sess0 "" = some (c3sess, c3run) ∧
    LlmInferenceEngine_Session_PredictSync eg3 ntZero sess0 "" = some (c3sess, c4ctx) ∧
    c4ctx.response_array = some [concatChunks c3run.chunks] :=
  ⟨rfl, by decide, by decide, by decide,
   claim_C4_sync_async_equiv eg3 ntZero sess0 "" [] c3sess c3run c3sess c4ctx
     rfl (by decide) (by decide) (by decide)⟩

/-- Witness for C5 at a concrete state holding 10 buffered characters. -/
theorem claim_C5_witness :
    env5.stop_tokens = [] ∧ s5.early_stop = false ∧
    (∃ c : String,
      (genStep env5 s5).chunks = s5.chunks ++ [(c, (genStep env5 s5).early_stop)] ∧
      ((genStep env5 s5).early_stop = false → c ≠ "" →
        strLen (genStep env5 s5).last_10_char = kCheckLastKChars) ∧
      ((genStep env5 s5).early_stop = true → c = (genStep env5 s5).last_10_char)) :=
  ⟨rfl, rfl, claim_C5_lookahead env5 s5 rfl rfl⟩

/-- Witness for C6 at an early-stopped concrete state. -/
theorem claim_C6_witness :
    s6e.early_stop = true ∧
    (next_token_function env6 3 s6e).backend_calls = s6e.backend_calls :=
  ⟨rfl, claim_C6_early_stop_no_backend.1 env6 3 s6e rfl⟩

/-- Witness for C7 at the concrete `eg3` scenario. -/
theorem claim_C7_witness :
    LlmInferenceEngine_Session_PredictSync eg3 ntZero sess0 "" = some (c3sess, c4ctx) ∧
    (c4ctx.response_count = 1 ∧ c4ctx.done = true ∧
     c4ctx.response_array = some [c3sess.final_output]) :=
  ⟨by decide, claim_C7_sync_single_entry eg3 ntZero sess0 "" c3sess c4ctx (by decide)⟩

/-- Witness for C8 on both a succeeding and a failing tokenizer. -/
theorem claim_C8_witness :
    (eg8ok.encode "t" = Except.ok [1, 2, 3] ∧
      LlmInferenceEngine_Session_SizeInTokens eg8ok "t" = (3, none)) ∧
    (eg8err.encode "t" = Except.error "invalid input" ∧
      LlmInferenceEngine_Session_SizeInTokens eg8err "t" = (-1, some "invalid input")) :=
  ⟨⟨rfl, (claim_C8_size_in_tokens eg8ok "t").1 [1, 2, 3] rfl⟩,
   ⟨rfl, (claim_C8_size_in_tokens eg8err "t").2 "invalid input" rfl⟩⟩

/-- Witness for C9 on a concrete two-entry context. -/
theorem claim_C9_witness :
    ctx9.response_array = some ["a", "b"] ∧
    ctx9.response_count = ["a", "b"].length ∧
    ((LlmInferenceEngine_CloseResponseContext ctx9).1 = ["a", "b"] ∧
     (LlmInferenceEngine_CloseResponseContext ctx9).2.response_count = 0 ∧
     (LlmInferenceEngine_CloseResponseContext ctx9).2.response_array = none) :=
  ⟨rfl, rfl, claim_C9_close_response ctx9 ["a", "b"] rfl rfl⟩

/-- Witness for C10 on two consecutive generations of the `eg10`
session. -/
theorem claim_C10_witness :
    sess0.response_count = 0 ∧
    LlmInferenceEngine_Session_PredictAsync eg10 ntZero sess0 "a" = some (sess10b, r10a) ∧
    LlmInferenceEngine_Session_PredictAsync eg10 ntZero sess10b "b" = some (sess10c, r10b) ∧
    eg10.encode "b" = Except.ok [] ∧
    r10b.backend_calls ≤
      ((eg10.max_num_tokens : Int) - ((([] : List Int).length : Int) + 1)
        - (r10a.backend_calls : Int)).toNat :=
  ⟨rfl, by decide, by decide, rfl,
   claim_C10_frame.2 eg10 ntZero ntZero sess0 sess10b sess10c "a" "b" r10a r10b []
     rfl (by decide) (by decide) rfl⟩

end LlmCpu
